import Mathlib

/-!
Shallow embedding of `src/justintime/cruncher/datamanager.py` (class
`RawDataManager` and its helpers) together with theorems settling the
frozen claims about it.

Modelling conventions:
* Python `collections.OrderedDict` is a `List (key × value)` whose head is
  the item `popitem(False)` removes (insertion order: new items append at
  the tail, `move_to_end(k, False)` moves an item to the head).
* Machine integers are `Nat`/`Int`; numpy `uint64` arithmetic is taken
  modulo `2 ^ 64` and `astype(int64)` reinterprets into `[-2^63, 2^63)`.
* External libraries (`hdf5libs`, `daqdataformats`, `detdataformats`,
  `rawdatautils`, `detchannelmaps`, `pandas`) are opaque: a `Fragment`
  carries the outputs the external decoders would produce, channel maps are
  function parameters, and the behaviour of the pandas calls actually used
  (`pd.concat`, `DataFrame.reindex`, `OrderedDict`-based construction,
  `set_index`) is modelled explicitly where the source invokes them.
* Python exceptions become `Except` errors tagged with the raised class.
-/

set_option maxRecDepth 100000

/-! ## Python dict / OrderedDict model -/

/-- Lookup in a Python dict modelled as an association list
(first matching key wins; keys are unique in an actual dict). -/
def pyDictFind? {κ V : Type} [DecidableEq κ] (k : κ) (d : List (κ × V)) : Option V :=
  (d.find? (fun p => decide (p.1 = k))).map (fun p => p.2)

/-- Python `d[k] = v`: overwrite in place if the key is present,
otherwise append at the tail (insertion order). -/
def pyDictSet {κ V : Type} [DecidableEq κ] (k : κ) (v : V) (d : List (κ × V)) :
    List (κ × V) :=
  if (d.find? (fun p => decide (p.1 = k))).isSome then
    d.map (fun p => if p.1 = k then (k, v) else p)
  else
    d ++ [(k, v)]

/-- `OrderedDict.move_to_end(k, last=False)`: move the entry for `k` to the
front of the order (datamanager.py line 145).  On an absent key the real
call raises `KeyError`; the source only calls it on a present key, so the
absent case is modelled as a no-op. -/
def pyDictMoveToFront {κ V : Type} [DecidableEq κ] (k : κ) (d : List (κ × V)) :
    List (κ × V) :=
  match (d.find? (fun p => decide (p.1 = k))).map (fun p => p.2) with
  | none => d
  | some v => (k, v) :: d.filter (fun p => !(decide (p.1 = k)))

/-! ## Record cache (datamanager.py lines 58, 96, 141-146, 218-221) -/

/-- Cache key `uid = (file_name, tr_num)` (line 141). -/
abbrev CacheKey := String × Nat

/-- The cache `self.cache = collections.OrderedDict()` (line 96). -/
abbrev Cache (V : Type) := List (CacheKey × V)

/-- `max_cache_size = 100` (line 58). -/
def maxCacheSize : Nat := 100

/-- The cache-insertion step of `load_trigger_record` (lines 218-221):
`self.cache[uid] = v`, then if `len(self.cache) > self.max_cache_size`,
`self.cache.popitem(False)` removes the front item. -/
def cachePut {V : Type} (k : CacheKey) (v : V) (c : Cache V) : Cache V :=
  let c2 := pyDictSet k v c
  if maxCacheSize < c2.length then c2.drop 1 else c2

/-- The scenario of claim C1: insert the 100 distinct keys
`("f", 1) .. ("f", 100)` into an empty cache. -/
def c1CacheFull : Cache Nat :=
  (List.range 100).foldl (fun c i => cachePut ("f", i + 1) 0 c) []

/-- The cache after a `get` hit on key `("f", 50)`: the hit path of
`load_trigger_record` executes `self.cache.move_to_end(uid, False)`
(line 145). -/
def c1CacheAfterHit : Cache Nat := pyDictMoveToFront ("f", 50) c1CacheFull

/-- The cache after the 101st distinct key is then inserted. -/
def c1CacheFinal : Cache Nat := cachePut ("f", 101) 0 c1CacheAfterHit

/-- Claim C1 (status: code_bug).  The spec says a `get` hit promotes the
entry to most-recently-used and protects it from the eviction triggered by
the 101st insertion, the least-recently-accessed entry being evicted
instead.  The code moves a hit entry to the front (`move_to_end(uid,
False)`) while eviction also pops the front (`popitem(False)`): after
filling the cache with keys `("f",1) .. ("f",100)`, a `get` hit on
`("f",50)` places it at the eviction position, and inserting `("f",101)`
evicts exactly the just-accessed key `("f",50)` while the
least-recently-accessed key `("f",1)` survives. -/
theorem c1_cache_hit_causes_eviction :
    (c1CacheAfterHit.head?.map (fun p => p.1) = some ("f", 50))
    ∧ pyDictFind? ("f", 50) c1CacheFinal = none
    ∧ (pyDictFind? ("f", 1) c1CacheFinal).isSome = true := by
  refine ⟨by decide, by decide, by decide⟩

/-! ## Data model of the container and decoded payloads

External structures are carried as records holding precisely the values the
source reads from them. -/

/-- The subsystem tag `daqdataformats.GeoID.kTPC` compared at line 188: an
external enum constant, modelled as a fixed natural number. -/
def kTPC : Nat := 0

/-- Size in bytes of a fragment header, `frag_hdr.sizeof()` (line 192): a
constant of the external `daqdataformats` library. -/
def fragHdrSize : Nat := 72

/-- Size in bytes of one ProtoWIB frame,
`detdataformats.wib.WIBFrame.sizeof()` (line 192): a constant of the
external `detdataformats` library.  Note the source uses this constant
unconditionally, for both configured frame formats. -/
def wibFrameSize : Nat := 464

/-- A geometry identifier attached to a fragment (`geoid`, lines 174-190). -/
structure GeoID where
  system_type : Nat
  region_id : Nat
  element_id : Nat
deriving DecidableEq, Repr

/-- One fragment, carrying its reported size (`frag.get_size()`) and the
outputs of the external decoders the source applies to it:
`get_hdr_info(frag)` (detector id, crate, slot, fiber/link),
`np_array_timestamp(frag)` (uint64 per-frame timestamps) and
`np_array_adc(frag)` (per-frame rows of 256 ADC samples). -/
structure Fragment where
  size : Nat
  hdrInfo : Nat × Nat × Nat × Nat
  timestamps : List Nat
  adcs : List (List Nat)
deriving DecidableEq, Repr

/-- The trigger-record header fields read at lines 165-171. -/
structure TRHeader where
  run_number : Nat
  trigger_number : Nat
  trigger_timestamp : Nat
deriving DecidableEq, Repr

/-- One stored trigger record: its header plus the geometry identifiers the
container reports for it (`get_geo_ids`), each paired with the fragment
`get_frag` returns for it. -/
structure TriggerRecord where
  hdr : TRHeader
  frags : List (GeoID × Fragment)
deriving DecidableEq, Repr

/-- An HDF5 container file: trigger records keyed by record number (the
source always passes sequence number 0 to `get_trh`/`get_geo_ids`/
`get_frag`), plus the identifier list `get_all_trigger_record_ids()`
returns, in container-native order. -/
structure HDF5File where
  records : List (Nat × TriggerRecord)
  allTriggerRecordIds : List (Nat × Nat)
deriving DecidableEq, Repr

/-- The `tr_info` dictionary built at lines 165-169. -/
structure TrInfo where
  run_number : Nat
  trigger_number : Nat
  trigger_timestamp : Nat
deriving DecidableEq, Repr

/-- A pandas DataFrame as used by the source: a row index of int64 time
offsets (the `ts` column made index at line 208) and ordered columns keyed
by offline channel, with optional cells (missing values after an outer
join). -/
structure DataFrame where
  index : List Int
  cols : List (Nat × List (Option Nat))
deriving DecidableEq, Repr

/-- Python exception classes raised along the paths modelled here. -/
inductive PyError where
  | valueError
  | runtimeError
  | keyError
deriving DecidableEq, Repr

/-! ## uint64 / int64 arithmetic of line 204 -/

/-- Numpy `uint64` subtraction: wraps modulo `2 ^ 64`. -/
def uint64Sub (a b : Nat) : Nat :=
  (a % 2 ^ 64 + (2 ^ 64 - b % 2 ^ 64)) % 2 ^ 64

/-- Numpy `.astype('int64')` on a uint64 value: reinterpret into
`[-2^63, 2^63)`. -/
def int64OfUInt64 (v : Nat) : Int :=
  if v < 2 ^ 63 then (v : Int) else (v : Int) - 2 ^ 64

/-- The row offset `(ts - tr_ts).astype('int64')` computed at line 204. -/
def tsOffset (t trTs : Nat) : Int := int64OfUInt64 (uint64Sub t trTs)

/-- When both operands are genuine uint64 values and their true difference
fits in int64, the wrapped-and-reinterpreted offset is exactly the signed
difference (possibly negative). -/
theorem tsOffset_eq_sub (t s : Nat) (ht : t < 2 ^ 64) (hs : s < 2 ^ 64)
    (hlo : -(2 ^ 63 : Int) ≤ (t : Int) - (s : Int))
    (hhi : (t : Int) - (s : Int) < 2 ^ 63) :
    tsOffset t s = (t : Int) - (s : Int) := by
  have ht' : t % 2 ^ 64 = t := Nat.mod_eq_of_lt ht
  have hs' : s % 2 ^ 64 = s := Nat.mod_eq_of_lt hs
  simp only [tsOffset, uint64Sub, int64OfUInt64, ht', hs']
  split
  · omega
  · omega

/-- Witness for `tsOffset_eq_sub`: a negative offset at concrete inputs. -/
theorem tsOffset_eq_sub_witness : tsOffset 998 1000 = (998 : Int) - 1000 :=
  tsOffset_eq_sub 998 1000 (by decide) (by decide) (by decide) (by decide)

/-! ## Channel maps -/

/-- The sentinel `4294967295` the source compares against at line 113: the
reserved maximum-uint32 constant meaning "no mapping". -/
def channelSentinel : Nat := 4294967295

/-- `VSTChannelMap.get_offline_channel_from_crate_slot_fiber_chan`
(lines 45-47): `256*fiber_no + ch_no`. -/
def vstOfflineChannel (crate_no slot_no fiber_no ch_no : Nat) : Nat :=
  256 * fiber_no + ch_no

/-- `VSTChannelMap.get_plane_from_offline_channel` (lines 49-51). -/
def vstPlane (ch : Nat) : Nat := 0

/-! ## Per-fragment decoding loop of `load_trigger_record` (lines 174-211) -/

/-- The offline-channel list comprehension of line 200:
`[ch_map.get_offline_channel_from_crate_slot_fiber_chan(crate_no, slot_no,
link_no, c) for c in range(256)]`. -/
def off_chans (chMap : Nat → Nat → Nat → Nat → Nat)
    (crate_no slot_no link_no : Nat) : List Nat :=
  (List.range 256).map (fun c => chMap crate_no slot_no link_no c)

/-- Python `dict`/`OrderedDict` built from a pair list (line 207): a
duplicated key keeps the position of its first occurrence and the value of
its last occurrence. -/
def dictOfPairsAux {κ V : Type} [DecidableEq κ] (acc : List (κ × V)) :
    List (κ × V) → List (κ × V)
  | [] => acc
  | p :: ps =>
    if acc.any (fun q => decide (q.1 = p.1)) then
      dictOfPairsAux (acc.map (fun q => if q.1 = p.1 then (q.1, p.2) else q)) ps
    else
      dictOfPairsAux (acc ++ [p]) ps

/-- Collapse a pair list into a Python dict, in order. -/
def dictOfPairs {κ V : Type} [DecidableEq κ] (ps : List (κ × V)) : List (κ × V) :=
  dictOfPairsAux [] ps

/-- The body of the per-geoid loop (lines 174-211) for one geometry
identifier and its fragment: `none` when the fragment is skipped
(non-TPC subsystem, line 188-190, or zero frames, lines 192-195),
otherwise the per-link DataFrame appended to `dfs` at line 211.
The `ts` column is immediately made the row index (`set_index('ts')`,
line 208); since the string key `'ts'` can never equal an integer offline
channel, the index is modelled as a separate field.  `off_chans[c]` at
line 207 is the channel map applied to the decoded header triple and `c`
(line 200). -/
def processGeoid (chMap : Nat → Nat → Nat → Nat → Nat) (trTs : Nat)
    (geoid : GeoID) (frag : Fragment) : Option DataFrame :=
  if geoid.system_type ≠ kTPC then none
  else
    let nFrames := (frag.size - fragHdrSize) / wibFrameSize
    if nFrames = 0 then none
    else
      let crate_no := frag.hdrInfo.2.1
      let slot_no := frag.hdrInfo.2.2.1
      let link_no := frag.hdrInfo.2.2.2
      let ts := frag.timestamps.map (fun t => tsOffset t trTs)
      let colPairs := (List.range 256).map (fun c =>
        (chMap crate_no slot_no link_no c,
         frag.adcs.map (fun row => some (row.getD c 0))))
      some { index := ts, cols := dictOfPairs colPairs }

/-! ## Table assembly (lines 213-215) -/

/-- Union of row keys in order of first appearance. -/
def orderedUnion (ls : List (List Int)) : List Int :=
  ls.flatten.foldl (fun acc i => if i ∈ acc then acc else acc ++ [i]) []

/-- Align one column of a source frame onto a combined row index: rows the
source frame does not cover become missing values (outer-join semantics). -/
def alignColumn (srcIndex : List Int) (cells : List (Option Nat))
    (idx : List Int) : List (Option Nat) :=
  idx.map (fun i =>
    match (srcIndex.zip cells).find? (fun p => decide (p.1 = i)) with
    | some p => p.2
    | none => none)

/-- `pd.concat(dfs, axis=1)` (line 213).  On an empty list pandas raises
`ValueError` ("No objects to concatenate"); a singleton is returned
unchanged; otherwise the result takes the union of the row indexes and the
concatenation of all column lists, each column aligned onto the combined
index with missing values for uncovered rows. -/
def concatAxis1 : List DataFrame → Except PyError DataFrame
  | [] => .error .valueError
  | [df] => .ok df
  | dfs =>
    let idx := orderedUnion (dfs.map (fun df => df.index))
    .ok { index := idx,
          cols := dfs.flatMap (fun df =>
            df.cols.map (fun p => (p.1, alignColumn df.index p.2 idx))) }

/-- `tr_df.reindex(sorted(tr_df.columns), axis=1)` (line 215): pandas
refuses to reindex an axis with duplicate labels (`ValueError`); with
unique labels the columns are reordered ascending by key (Python's sorted
is a stable sort; on unique keys any insertion sort agrees with it). -/
def reindexSortedCols (df : DataFrame) : Except PyError DataFrame :=
  if (df.cols.map Prod.fst).Nodup then
    .ok { df with cols := List.insertionSort (fun p q => p.1 ≤ q.1) df.cols }
  else .error .valueError

/-! ## `load_trigger_record` (lines 139-223) -/

/-- The full `load_trigger_record(file_name, tr_num)` against a container
`file`, threading the cache explicitly: returns the `(tr_info, tr_df)`
result (or the raised exception) together with the cache after the call.
A missing record makes the container lookup raise (surfaced unchanged). -/
def loadTriggerRecord (chMap : Nat → Nat → Nat → Nat → Nat)
    (file_name : String) (file : HDF5File) (tr_num : Nat)
    (cache : Cache (TrInfo × DataFrame)) :
    Except PyError (TrInfo × DataFrame) × Cache (TrInfo × DataFrame) :=
  let uid : CacheKey := (file_name, tr_num)
  match pyDictFind? uid cache with
  | some entry => (.ok entry, pyDictMoveToFront uid cache)
  | none =>
    match pyDictFind? tr_num file.records with
    | none => (.error .keyError, cache)
    | some rec =>
      let tr_info : TrInfo :=
        { run_number := rec.hdr.run_number,
          trigger_number := rec.hdr.trigger_number,
          trigger_timestamp := rec.hdr.trigger_timestamp }
      let tr_ts := rec.hdr.trigger_timestamp
      let dfs := rec.frags.filterMap (fun p => processGeoid chMap tr_ts p.1 p.2)
      match concatAxis1 dfs with
      | .error e => (.error e, cache)
      | .ok tr_df =>
        match reindexSortedCols tr_df with
        | .error e => (.error e, cache)
        | .ok tr_df2 => (.ok (tr_info, tr_df2), cachePut uid (tr_info, tr_df2) cache)

/-- Info part of a `load_trigger_record` outcome. -/
def resInfo? : Except PyError (TrInfo × DataFrame) → Option TrInfo
  | .ok p => some p.1
  | .error _ => none

/-- Column keys of the delivered table (empty on error). -/
def resColKeys : Except PyError (TrInfo × DataFrame) → List Nat
  | .ok p => p.2.cols.map Prod.fst
  | .error _ => []

/-- Row index of the delivered table (empty on error). -/
def resIndex : Except PyError (TrInfo × DataFrame) → List Int
  | .ok p => p.2.index
  | .error _ => []

/-! ## Claim C2: records with no matching-subsystem fragments -/

/-- A fragment whose geometry identifier is not tagged `kTPC` is skipped
(lines 188-190). -/
theorem processGeoid_eq_none_of_nonTPC (chMap : Nat → Nat → Nat → Nat → Nat)
    (trTs : Nat) (g : GeoID) (frag : Fragment) (h : g.system_type ≠ kTPC) :
    processGeoid chMap trTs g frag = none := by
  simp [processGeoid, h]

/-- A channel map that maps everything to offline channel 0 (stand-in for
an arbitrary map where the claim does not depend on the mapping). -/
def cmapZero : Nat → Nat → Nat → Nat → Nat := fun _ _ _ _ => 0

/-- A concrete container with one trigger record that holds no fragments at
all (so in particular zero TPC-tagged geometry identifiers). -/
def fileC2 : HDF5File :=
  { records := [(1, { hdr := { run_number := 4, trigger_number := 9,
                               trigger_timestamp := 500 },
                      frags := [] })],
    allTriggerRecordIds := [(1, 0)] }

/-- Counterexample to claim C2 as stated: on a record with zero matching
geometry identifiers, `load_trigger_record` does not return an empty
table — `pd.concat` of the empty frame list raises `ValueError`. -/
theorem c2_counterexample_empty_record_raises :
    (loadTriggerRecord cmapZero "run.hdf5" fileC2 1 []).1 =
      Except.error PyError.valueError := by
  rfl

/-- Claim C2 (status: corrected).  Amended: for every trigger record whose
geometry identifiers contain no TPC-tagged entry, a non-cached
`load_trigger_record` call raises `ValueError` (from the concatenation of
zero per-fragment tables) instead of returning an empty table. -/
theorem c2_no_matching_fragments_raises (chMap : Nat → Nat → Nat → Nat → Nat)
    (file_name : String) (file : HDF5File) (tr_num : Nat)
    (cache : Cache (TrInfo × DataFrame)) (rec : TriggerRecord)
    (hmiss : pyDictFind? (file_name, tr_num) cache = none)
    (hrec : pyDictFind? tr_num file.records = some rec)
    (hnone : ∀ p ∈ rec.frags, p.1.system_type ≠ kTPC) :
    (loadTriggerRecord chMap file_name file tr_num cache).1 =
      Except.error PyError.valueError := by
  have hdfs : rec.frags.filterMap
      (fun p => processGeoid chMap rec.hdr.trigger_timestamp p.1 p.2) = [] := by
    rw [List.filterMap_eq_nil_iff]
    intro p hp
    exact processGeoid_eq_none_of_nonTPC _ _ _ _ (hnone p hp)
  simp [loadTriggerRecord, hmiss, hrec, hdfs, concatAxis1]

/-- A non-TPC geometry identifier (subsystem tag different from `kTPC`). -/
def geoNonTPC : GeoID := { system_type := 5, region_id := 0, element_id := 0 }

/-- A dummy fragment attached to the non-TPC identifier. -/
def fragDummy : Fragment :=
  { size := fragHdrSize + wibFrameSize, hdrInfo := (0, 0, 0, 0),
    timestamps := [0], adcs := [List.replicate 256 0] }

/-- A container whose single record carries one fragment, tagged with a
non-matching subsystem. -/
def fileC2b : HDF5File :=
  { records := [(2, { hdr := { run_number := 4, trigger_number := 9,
                               trigger_timestamp := 500 },
                      frags := [(geoNonTPC, fragDummy)] })],
    allTriggerRecordIds := [(2, 0)] }

/-- Witness for `c2_no_matching_fragments_raises` at a concrete record whose
only fragment is tagged with a non-matching subsystem. -/
theorem c2_witness :
    (loadTriggerRecord cmapZero "run.hdf5" fileC2b 2 []).1 =
      Except.error PyError.valueError :=
  c2_no_matching_fragments_raises cmapZero "run.hdf5" fileC2b 2 []
    { hdr := { run_number := 4, trigger_number := 9, trigger_timestamp := 500 },
      frags := [(geoNonTPC, fragDummy)] }
    (by decide) (by decide) (by decide)

/-! ## Claim C3: frame count and the skip condition -/

/-- A TPC-tagged geometry identifier. -/
def geoTPC : GeoID := { system_type := kTPC, region_id := 0, element_id := 0 }

/-- A fragment whose post-header payload (700 bytes) is not a multiple of
the 464-byte frame size, yet larger than one frame: the external unpacker
would deliver the one complete frame. -/
def fragC3 : Fragment :=
  { size := fragHdrSize + 700, hdrInfo := (0, 4, 0, 1),
    timestamps := [5], adcs := [List.replicate 256 0] }

/-- Counterexample to claim C3 as stated: a fragment whose payload length is
not an integer multiple of the frame size after header subtraction does NOT
yield zero decodable frames and is NOT skipped — integer division gives one
frame here and the fragment is decoded. -/
theorem c3_counterexample_nonmultiple_not_skipped :
    ((fragC3.size - fragHdrSize) % wibFrameSize ≠ 0)
    ∧ ((fragC3.size - fragHdrSize) / wibFrameSize = 1)
    ∧ (processGeoid cmapZero 0 geoTPC fragC3).isSome = true := by
  refine ⟨by decide, by decide, by decide⟩

/-- Claim C3 (status: corrected).  Amended: the frame count is
`(fragment_size - fragment_header_size) / frame_size` by integer division,
and a TPC fragment is skipped (no error, no rows or columns contributed)
exactly when that count is zero, i.e. exactly when the post-header payload
is smaller than one frame; a non-multiple payload of at least one frame
size is not skipped and decodes the floor number of frames. -/
theorem c3_skip_iff_zero_frames (chMap : Nat → Nat → Nat → Nat → Nat)
    (trTs : Nat) (g : GeoID) (frag : Fragment) (hsys : g.system_type = kTPC) :
    (processGeoid chMap trTs g frag = none ↔
      (frag.size - fragHdrSize) / wibFrameSize = 0)
    ∧ ((frag.size - fragHdrSize) / wibFrameSize = 0 ↔
      frag.size - fragHdrSize < wibFrameSize) := by
  constructor
  · simp only [processGeoid, hsys]
    split
    · simp_all
    · split
      · simp_all
      · simp_all
  · rw [Nat.div_eq_zero_iff (by decide : 0 < wibFrameSize)]

/-- A fragment whose post-header payload (100 bytes) is smaller than one
frame. -/
def fragC3small : Fragment :=
  { size := fragHdrSize + 100, hdrInfo := (0, 4, 0, 1),
    timestamps := [], adcs := [] }

/-- Witness for `c3_skip_iff_zero_frames`: the short fragment is skipped. -/
theorem c3_witness : processGeoid cmapZero 0 geoTPC fragC3small = none :=
  ((c3_skip_iff_zero_frames cmapZero 0 geoTPC fragC3small (by decide)).1).mpr
    (by decide)

/-! ## Claim C4: sentinel and duplicate column keys -/

/-- A channel map returning the sentinel on every input: the behaviour of
the external production maps on hardware addresses with no physical
mapping, as for a decoded fragment header pointing outside the mapped
ranges. -/
def cmapSentinel : Nat → Nat → Nat → Nat → Nat := fun _ _ _ _ => channelSentinel

/-- A single-frame TPC fragment. -/
def fragC4 : Fragment :=
  { size := fragHdrSize + wibFrameSize, hdrInfo := (0, 9, 9, 9),
    timestamps := [500], adcs := [List.replicate 256 7] }

/-- A container with one record holding the single TPC fragment. -/
def fileC4 : HDF5File :=
  { records := [(1, { hdr := { run_number := 1, trigger_number := 2,
                               trigger_timestamp := 500 },
                      frags := [(geoTPC, fragC4)] })],
    allTriggerRecordIds := [(1, 0)] }

/-- Counterexample to claim C4 as stated: `load_trigger_record` applies no
sentinel filtering (line 200 maps all 256 local channels unconditionally),
so a fragment whose header address is unmapped delivers a table whose only
column key is the sentinel 4294967295. -/
theorem c4_counterexample_sentinel_column :
    resColKeys (loadTriggerRecord cmapSentinel "run.hdf5" fileC4 1 []).1 =
      [4294967295]
    ∧ (resInfo? (loadTriggerRecord cmapSentinel "run.hdf5" fileC4 1 []).1).isSome
        = true := by
  refine ⟨by decide, by decide⟩

/-- Columns delivered by a successful `reindex` carry pairwise distinct
keys: pandas raises on a duplicate axis, and reordering preserves
distinctness. -/
theorem reindex_ok_nodup (tdf df : DataFrame)
    (h : reindexSortedCols tdf = .ok df) : (df.cols.map Prod.fst).Nodup := by
  unfold reindexSortedCols at h
  split at h
  · rename_i hnodup
    obtain rfl : { tdf with
        cols := List.insertionSort (fun p q => p.1 ≤ q.1) tdf.cols } = df :=
      by injection h
    exact (((List.perm_insertionSort _ tdf.cols).map Prod.fst).symm.nodup_iff).mp
      hnodup
  · exact absurd h (by simp)

/-- Claim C4 (status: corrected).  Amended: in every table delivered by
`load_trigger_record` no two columns carry the same offline-channel key
(duplicates within one fragment collapse in the dict construction, and
duplicates across fragments make the final reindex raise instead of
delivering), but the sentinel 4294967295 can appear as a column key since
this layer applies no sentinel filtering.  The cache hypothesis says every
cached table already satisfies the invariant (all cached entries were built
by this same path). -/
theorem c4_delivered_columns_nodup (chMap : Nat → Nat → Nat → Nat → Nat)
    (file_name : String) (file : HDF5File) (tr_num : Nat)
    (cache : Cache (TrInfo × DataFrame)) (info : TrInfo) (df : DataFrame)
    (hcache : ∀ p ∈ cache, ((p.2.2.cols.map Prod.fst).Nodup))
    (h : (loadTriggerRecord chMap file_name file tr_num cache).1 =
      Except.ok (info, df)) :
    (df.cols.map Prod.fst).Nodup := by
  rcases hc : pyDictFind? (file_name, tr_num) cache with _ | entry
  · rcases hr : pyDictFind? tr_num file.records with _ | rec
    · simp [loadTriggerRecord, hc, hr] at h
    · simp only [loadTriggerRecord, hc, hr] at h
      split at h
      · simp at h
      · split at h
        · simp at h
        · rename_i tdf htdf tdf2 hrx
          simp only [Except.ok.injEq, Prod.mk.injEq] at h
          obtain ⟨h1, h2⟩ := h
          rw [← h2]
          exact reindex_ok_nodup _ _ hrx
  · simp only [loadTriggerRecord, hc] at h
    obtain ⟨p, hfind, hp2⟩ :
        ∃ p, cache.find? (fun p => decide (p.1 = (file_name, tr_num))) = some p
          ∧ p.2 = entry := by
      simpa [pyDictFind?, Option.map_eq_some'] using hc
    have hmem : p ∈ cache := List.mem_of_find?_eq_some hfind
    have hnd := hcache p hmem
    have hent : p.2 = (info, df) := by
      rw [hp2]
      simpa using h
    rw [hent] at hnd
    exact hnd

/-- The info part of the record delivered from `fileC4`. -/
def infoC4 : TrInfo := { run_number := 1, trigger_number := 2, trigger_timestamp := 500 }

/-- The table delivered from `fileC4` under the all-sentinel map. -/
def dfC4 : DataFrame := { index := [0], cols := [(4294967295, [some 7])] }

/-- Witness for `c4_delivered_columns_nodup` at the concrete container. -/
theorem c4_witness : (dfC4.cols.map Prod.fst).Nodup :=
  c4_delivered_columns_nodup cmapSentinel "run.hdf5" fileC4 1 [] infoC4 dfC4
    (by simp) (by rfl)

/-! ## Claim C5: end-to-end on a 4-frame, 256-channel record -/

/-- Folding the dict construction over pairs whose keys are pairwise
distinct changes nothing: no overwrite fires. -/
theorem dictOfPairsAux_of_nodup {κ V : Type} [DecidableEq κ]
    (ps : List (κ × V)) : ∀ acc : List (κ × V),
    ((acc ++ ps).map Prod.fst).Nodup → dictOfPairsAux acc ps = acc ++ ps := by
  induction ps with
  | nil => intro acc _; simp [dictOfPairsAux]
  | cons p ps ih =>
    intro acc h
    have hkey : p.1 ∉ acc.map Prod.fst := by
      have h' := h
      rw [List.map_append, List.nodup_append] at h'
      intro hin
      exact h'.2.2 hin (by simp)
    have hany : (acc.any (fun q => decide (q.1 = p.1))) = false := by
      rw [List.any_eq_false]
      intro q hq
      simp only [decide_eq_true_eq]
      intro hqp
      exact hkey (hqp ▸ List.mem_map_of_mem Prod.fst hq)
    simp only [dictOfPairsAux, hany, Bool.false_eq_true, if_false]
    rw [ih (acc ++ [p]) (by simpa using h)]
    simp

/-- A dict built from pairs with pairwise distinct keys is the pair list
itself. -/
theorem dictOfPairs_of_nodup {κ V : Type} [DecidableEq κ]
    (ps : List (κ × V)) (h : (ps.map Prod.fst).Nodup) : dictOfPairs ps = ps := by
  simpa [dictOfPairs] using dictOfPairsAux_of_nodup ps [] (by simpa using h)

/-- The column pairs built at lines 200-207 for a decoded header triple. -/
def fragColPairs (chMap : Nat → Nat → Nat → Nat → Nat)
    (crate_no slot_no link_no : Nat) (frag : Fragment) :
    List (Nat × List (Option Nat)) :=
  (List.range 256).map (fun c =>
    (chMap crate_no slot_no link_no c,
     frag.adcs.map (fun row => some (row.getD c 0))))

/-- Keys of the per-fragment column pairs are exactly the offline-channel
list of line 200. -/
theorem fragColPairs_keys (chMap : Nat → Nat → Nat → Nat → Nat)
    (crate_no slot_no link_no : Nat) (frag : Fragment) :
    (fragColPairs chMap crate_no slot_no link_no frag).map Prod.fst =
      off_chans chMap crate_no slot_no link_no := by
  simp [fragColPairs, off_chans, List.map_map]

/-- Evaluation of the per-geoid loop body on a decodable TPC fragment whose
offline channels are pairwise distinct. -/
theorem processGeoid_eq_some (chMap : Nat → Nat → Nat → Nat → Nat)
    (trTs : Nat) (g : GeoID) (frag : Fragment) (d c s l : Nat)
    (hsys : g.system_type = kTPC)
    (hhdr : frag.hdrInfo = (d, c, s, l))
    (hframes : (frag.size - fragHdrSize) / wibFrameSize ≠ 0)
    (hch : (off_chans chMap c s l).Nodup) :
    processGeoid chMap trTs g frag = some
      { index := frag.timestamps.map (fun t => tsOffset t trTs),
        cols := fragColPairs chMap c s l frag } := by
  have hdict : dictOfPairs ((List.range 256).map (fun ch =>
      (chMap c s l ch, frag.adcs.map (fun row => some (row.getD ch 0))))) =
      (List.range 256).map (fun ch =>
        (chMap c s l ch, frag.adcs.map (fun row => some (row.getD ch 0)))) :=
    dictOfPairs_of_nodup _ (by simpa [List.map_map, off_chans] using hch)
  simp only [List.getD_eq_getElem?_getD] at hdict
  simp only [processGeoid, hsys, hhdr, ne_eq, not_true_eq_false, if_false,
    hframes]
  simp [hdict, fragColPairs, List.getD_eq_getElem?_getD]

/-- Claim C5 (status: confirmed).  For a non-cached record whose fragment
list holds exactly one TPC-tagged fragment decoding to 4 frames of 256
channels (sized at exactly 4 frames, uint64 timestamps pairwise distinct
with offsets in int64 range, offline channels pairwise distinct),
`load_trigger_record` delivers: info equal to the header fields; a row
index of 4 distinct offsets, each the frame timestamp minus the trigger
timestamp as a signed integer; exactly 256 columns, being the channel map
applied to the decoded header triple on local channels 0..255; and column
keys sorted strictly ascending. -/
theorem c5_end_to_end (chMap : Nat → Nat → Nat → Nat → Nat)
    (file_name : String) (file : HDF5File) (tr_num : Nat)
    (cache : Cache (TrInfo × DataFrame)) (rec : TriggerRecord)
    (g : GeoID) (frag : Fragment) (d c s l : Nat)
    (hmiss : pyDictFind? (file_name, tr_num) cache = none)
    (hrec : pyDictFind? tr_num file.records = some rec)
    (hfrags : rec.frags = [(g, frag)])
    (hsys : g.system_type = kTPC)
    (hhdr : frag.hdrInfo = (d, c, s, l))
    (hsize : frag.size = fragHdrSize + 4 * wibFrameSize)
    (hlen : frag.timestamps.length = 4)
    (htsnodup : frag.timestamps.Nodup)
    (htsbound : ∀ t ∈ frag.timestamps, t < 2 ^ 64)
    (htrbound : rec.hdr.trigger_timestamp < 2 ^ 64)
    (hlo : ∀ t ∈ frag.timestamps,
      -(2 ^ 63 : Int) ≤ (t : Int) - (rec.hdr.trigger_timestamp : Int))
    (hhi : ∀ t ∈ frag.timestamps,
      (t : Int) - (rec.hdr.trigger_timestamp : Int) < 2 ^ 63)
    (hch : (off_chans chMap c s l).Nodup) :
    resInfo? (loadTriggerRecord chMap file_name file tr_num cache).1 =
      some { run_number := rec.hdr.run_number,
             trigger_number := rec.hdr.trigger_number,
             trigger_timestamp := rec.hdr.trigger_timestamp }
    ∧ resIndex (loadTriggerRecord chMap file_name file tr_num cache).1 =
        frag.timestamps.map
          (fun t : Nat => (t : Int) - (rec.hdr.trigger_timestamp : Int))
    ∧ (resIndex (loadTriggerRecord chMap file_name file tr_num cache).1).length = 4
    ∧ (resIndex (loadTriggerRecord chMap file_name file tr_num cache).1).Nodup
    ∧ (resColKeys (loadTriggerRecord chMap file_name file tr_num cache).1).Perm
        (off_chans chMap c s l)
    ∧ (resColKeys (loadTriggerRecord chMap file_name file tr_num cache).1).length
        = 256
    ∧ List.Sorted (fun a b => a < b)
        (resColKeys (loadTriggerRecord chMap file_name file tr_num cache).1) := by
  have hframes : (frag.size - fragHdrSize) / wibFrameSize ≠ 0 := by
    rw [hsize]; decide
  have hdf0 := processGeoid_eq_some chMap rec.hdr.trigger_timestamp g frag d c s l
    hsys hhdr hframes hch
  have hkeys : ((fragColPairs chMap c s l frag).map Prod.fst).Nodup := by
    rw [fragColPairs_keys]; exact hch
  have hre : reindexSortedCols
      { index := frag.timestamps.map
          (fun t => tsOffset t rec.hdr.trigger_timestamp),
        cols := fragColPairs chMap c s l frag } =
      .ok { index := frag.timestamps.map
              (fun t => tsOffset t rec.hdr.trigger_timestamp),
            cols := List.insertionSort (fun p q => p.1 ≤ q.1)
              (fragColPairs chMap c s l frag) } := by
    unfold reindexSortedCols
    rw [if_pos hkeys]
  have hload : (loadTriggerRecord chMap file_name file tr_num cache).1 =
      .ok ({ run_number := rec.hdr.run_number,
             trigger_number := rec.hdr.trigger_number,
             trigger_timestamp := rec.hdr.trigger_timestamp },
           { index := frag.timestamps.map
               (fun t => tsOffset t rec.hdr.trigger_timestamp),
             cols := List.insertionSort (fun p q => p.1 ≤ q.1)
               (fragColPairs chMap c s l frag) }) := by
    simp only [loadTriggerRecord, hmiss, hrec, hfrags, List.filterMap_cons]
    simp only [hdf0]
    simp only [List.filterMap_nil, concatAxis1]
    simp only [hre]
  have hindex : resIndex (loadTriggerRecord chMap file_name file tr_num cache).1 =
      frag.timestamps.map
        (fun t : Nat => (t : Int) - (rec.hdr.trigger_timestamp : Int)) := by
    rw [hload]
    simp only [resIndex]
    exact List.map_congr_left (fun t ht =>
      tsOffset_eq_sub t rec.hdr.trigger_timestamp (htsbound t ht) htrbound
        (hlo t ht) (hhi t ht))
  have hcolkeys : resColKeys (loadTriggerRecord chMap file_name file tr_num cache).1
      = (List.insertionSort (fun p q => p.1 ≤ q.1)
          (fragColPairs chMap c s l frag)).map Prod.fst := by
    rw [hload]
    simp only [resColKeys]
  have hperm : (resColKeys
      (loadTriggerRecord chMap file_name file tr_num cache).1).Perm
      (off_chans chMap c s l) := by
    rw [hcolkeys, ← fragColPairs_keys chMap c s l frag]
    exact (List.perm_insertionSort _ _).map Prod.fst
  refine ⟨by rw [hload]; simp only [resInfo?], hindex, ?_, ?_, hperm, ?_, ?_⟩
  · rw [hindex, List.length_map, hlen]
  · rw [hindex]
    refine List.Nodup.map_on ?_ htsnodup
    intro x _ y _ hxy
    omega
  · rw [hperm.length_eq]
    simp [off_chans]
  · rw [hcolkeys]
    haveI : IsTotal (Nat × List (Option Nat)) (fun p q => p.1 ≤ q.1) :=
      ⟨fun a b => Nat.le_total _ _⟩
    haveI : IsTrans (Nat × List (Option Nat)) (fun p q => p.1 ≤ q.1) :=
      ⟨fun _ _ _ h1 h2 => le_trans h1 h2⟩
    have hp := List.sorted_insertionSort
      (fun p q : Nat × List (Option Nat) => p.1 ≤ q.1)
      (fragColPairs chMap c s l frag)
    have hle : List.Pairwise (fun a b : Nat => a ≤ b)
        ((List.insertionSort (fun p q => p.1 ≤ q.1)
          (fragColPairs chMap c s l frag)).map Prod.fst) :=
      List.pairwise_map.mpr hp
    have hndk : List.Pairwise (fun a b : Nat => a ≠ b)
        ((List.insertionSort (fun p q => p.1 ≤ q.1)
          (fragColPairs chMap c s l frag)).map Prod.fst) := by
      have : ((List.insertionSort (fun p q => p.1 ≤ q.1)
          (fragColPairs chMap c s l frag)).map Prod.fst).Perm
          (off_chans chMap c s l) := by
        rw [← fragColPairs_keys chMap c s l frag]
        exact (List.perm_insertionSort _ _).map Prod.fst
      exact this.nodup_iff.mpr hch
    exact (hle.and hndk).imp (fun h => lt_of_le_of_ne h.1 h.2)

/-- A concrete 4-frame, 256-channel TPC fragment whose decoded header is
crate 4, slot 0, link 1. -/
def fragC5 : Fragment :=
  { size := fragHdrSize + 4 * wibFrameSize, hdrInfo := (0, 4, 0, 1),
    timestamps := [998, 999, 1000, 1001],
    adcs := List.replicate 4 (List.replicate 256 0) }

/-- The synthetic trigger record of the C5 scenario. -/
def recC5 : TriggerRecord :=
  { hdr := { run_number := 3, trigger_number := 7, trigger_timestamp := 1000 },
    frags := [(geoTPC, fragC5)] }

/-- The synthetic container of the C5 scenario. -/
def fileC5 : HDF5File :=
  { records := [(1, recC5)], allTriggerRecordIds := [(1, 0)] }

/-- Witness for `c5_end_to_end` on the synthetic container, with the VST
channel map (`256*fiber + channel`) taken from the source itself. -/
theorem c5_witness :
    resInfo? (loadTriggerRecord vstOfflineChannel "run.hdf5" fileC5 1 []).1 =
      some { run_number := recC5.hdr.run_number,
             trigger_number := recC5.hdr.trigger_number,
             trigger_timestamp := recC5.hdr.trigger_timestamp }
    ∧ resIndex (loadTriggerRecord vstOfflineChannel "run.hdf5" fileC5 1 []).1 =
        fragC5.timestamps.map
          (fun t : Nat => (t : Int) - (recC5.hdr.trigger_timestamp : Int))
    ∧ (resIndex (loadTriggerRecord vstOfflineChannel "run.hdf5" fileC5 1 []).1).length = 4
    ∧ (resIndex (loadTriggerRecord vstOfflineChannel "run.hdf5" fileC5 1 []).1).Nodup
    ∧ (resColKeys (loadTriggerRecord vstOfflineChannel "run.hdf5" fileC5 1 []).1).Perm
        (off_chans vstOfflineChannel 4 0 1)
    ∧ (resColKeys (loadTriggerRecord vstOfflineChannel "run.hdf5" fileC5 1 []).1).length
        = 256
    ∧ List.Sorted (fun a b => a < b)
        (resColKeys (loadTriggerRecord vstOfflineChannel "run.hdf5" fileC5 1 []).1) :=
  c5_end_to_end vstOfflineChannel "run.hdf5" fileC5 1 [] recC5 geoTPC fragC5
    0 4 0 1 (by decide) (by decide) (by decide) (by decide) (by decide)
    (by decide) (by decide) (by decide) (by decide) (by decide) (by decide)
    (by decide) (by decide)

/-! ## Claim C6: `get_trigger_record_list` (lines 133-136) -/

/-- The list comprehension `[ n for n,_ in rdf.get_all_trigger_record_ids()]`
(line 136). -/
def recordNumbersOf : List (Nat × Nat) → List Nat
  | [] => []
  | (n, _) :: rest => n :: recordNumbersOf rest

/-- `get_trigger_record_list(file_name)`: open the container and keep only
the first component of each stored trigger-record identifier. -/
def get_trigger_record_list (file : HDF5File) : List Nat :=
  recordNumbersOf file.allTriggerRecordIds

/-- Two containers differing only in sequence numbers. -/
def fileC6a : HDF5File := { records := [], allTriggerRecordIds := [(3, 7)] }

/-- The same container with sequence number zero. -/
def fileC6b : HDF5File := { records := [], allTriggerRecordIds := [(3, 0)] }

/-- Counterexample to claim C6 as stated: the function does not return the
identifiers as `(record_number, sequence_number)` pairs — it discards the
sequence number, so two containers with different stored identifiers
produce the same output. -/
theorem c6_counterexample_sequence_dropped :
    get_trigger_record_list fileC6a = get_trigger_record_list fileC6b
    ∧ fileC6a.allTriggerRecordIds ≠ fileC6b.allTriggerRecordIds := by
  refine ⟨by decide, by decide⟩

/-- Claim C6 (status: corrected).  Amended: `get_trigger_record_list`
returns the record-number components of all stored trigger-record
identifiers, one per identifier, in container-native order, without
re-sorting; the sequence numbers are dropped. -/
theorem c6_record_numbers_in_order (file : HDF5File) :
    get_trigger_record_list file = file.allTriggerRecordIds.map Prod.fst
    ∧ (get_trigger_record_list file).length = file.allTriggerRecordIds.length := by
  constructor
  · unfold get_trigger_record_list
    induction file.allTriggerRecordIds with
    | nil => rfl
    | cons p rest ih => cases p; simp [recordNumbersOf, ih]
  · unfold get_trigger_record_list
    induction file.allTriggerRecordIds with
    | nil => rfl
    | cons p rest ih => cases p; simp [recordNumbersOf, ih]

/-! ## Claim C7: construction-time validation (lines 64-97) -/

/-- Python exception classes distinguished by `RawDataManager.__init__` and
`make_channel_map`. -/
inductive InitError where
  | valueError
  | runtimeError
deriving DecidableEq, Repr

/-- The channel-map variants `make_channel_map` can produce (the three
external library maps and the source's own VST map). -/
inductive ChannelMapKind where
  | vdColdbox
  | protoDUNESP1
  | pd2hd
  | vst
deriving DecidableEq, Repr

/-- `RawDataManager.make_channel_map` (lines 64-76): unknown channel-map
identifiers raise `RuntimeError`. -/
def make_channel_map (map_id : String) : Except InitError ChannelMapKind :=
  if map_id = "VDColdbox" then .ok .vdColdbox
  else if map_id = "ProtoDUNESP1" then .ok .protoDUNESP1
  else if map_id = "PD2HD" then .ok .pd2hd
  else if map_id = "VST" then .ok .vst
  else .error .runtimeError

/-- The recognized frame-format names (line 84). -/
def frameTypeNames : List String := ["ProtoWIB", "WIB"]

/-- The recognized channel-map identifiers (lines 67-74). -/
def channelMapNames : List String := ["VDColdbox", "ProtoDUNESP1", "PD2HD", "VST"]

/-- `RawDataManager.__init__` (lines 79-97): `ValueError` when `data_path`
is not an existing directory (modelled by the boolean `isDir`) or the frame
type is unrecognized, then `make_channel_map` (which raises `RuntimeError`
on an unknown identifier); the remaining construction steps cannot fail. -/
def rawDataManagerInit (isDir : Bool) (frame_type : String) (ch_map_id : String) :
    Except InitError ChannelMapKind :=
  if !isDir then .error .valueError
  else if !(frameTypeNames.contains frame_type) then .error .valueError
  else make_channel_map ch_map_id

/-- Counterexample to claim C7 as stated: construction failures are not all
of one error class — an unknown channel map raises `RuntimeError` while a
missing directory (or unknown frame format) raises `ValueError`, and no
dedicated `ConfigurationError` class exists. -/
theorem c7_counterexample_two_error_classes :
    rawDataManagerInit true "ProtoWIB" "Bogus" = .error .runtimeError
    ∧ rawDataManagerInit false "ProtoWIB" "VDColdbox" = .error .valueError
    ∧ rawDataManagerInit true "NotAFormat" "VDColdbox" = .error .valueError
    ∧ InitError.runtimeError ≠ InitError.valueError := by
  refine ⟨by rfl, by rfl, by rfl, by decide⟩

/-- Claim C7 (status: corrected).  Amended: construction fails exactly when
the data path is not an existing directory, or the frame-format name is
unrecognized, or the channel-map identifier is unrecognized — but with
`ValueError` for the first two conditions and `RuntimeError` for the third
(checked in that order), not with a single error class. -/
theorem c7_init_error_conditions (isDir : Bool) (frame_type ch_map_id : String) :
    ((rawDataManagerInit isDir frame_type ch_map_id).isOk = true ↔
      (isDir = true ∧ frame_type ∈ frameTypeNames ∧ ch_map_id ∈ channelMapNames))
    ∧ (isDir = false →
        rawDataManagerInit isDir frame_type ch_map_id = .error .valueError)
    ∧ (isDir = true → frame_type ∉ frameTypeNames →
        rawDataManagerInit isDir frame_type ch_map_id = .error .valueError)
    ∧ (isDir = true → frame_type ∈ frameTypeNames → ch_map_id ∉ channelMapNames →
        rawDataManagerInit isDir frame_type ch_map_id = .error .runtimeError) := by
  cases isDir with
  | false => simp [rawDataManagerInit, Except.isOk, Except.toBool]
  | true =>
    by_cases h1 : frame_type = "ProtoWIB" <;>
    by_cases h2 : frame_type = "WIB" <;>
    by_cases m1 : ch_map_id = "VDColdbox" <;>
    by_cases m2 : ch_map_id = "ProtoDUNESP1" <;>
    by_cases m3 : ch_map_id = "PD2HD" <;>
    by_cases m4 : ch_map_id = "VST" <;>
    simp_all [rawDataManagerInit, make_channel_map, frameTypeNames,
      channelMapNames, Except.isOk, Except.toBool]

/-- Witness for `c7_init_error_conditions`: a valid construction succeeds
and an unknown channel map fails with `RuntimeError`. -/
theorem c7_witness :
    (rawDataManagerInit true "WIB" "VST").isOk = true
    ∧ rawDataManagerInit true "WIB" "Nope" = .error .runtimeError :=
  ⟨((c7_init_error_conditions true "WIB" "VST").1).mpr
      ⟨rfl, by decide, by decide⟩,
   (c7_init_error_conditions true "WIB" "Nope").2.2.2 rfl (by decide) (by decide)⟩

/-! ## Claim C8: `list_files` (lines 56-57, 125-130) -/

/-- `fnmatch` of a file name against the glob `*.hdf5` (names modelled as
character lists; the pattern matches exactly the names ending in the
suffix). -/
def matchesHdf5 (name : List Char) : Bool := ".hdf5".toList.isSuffixOf name

/-- `fnmatch` against the second pattern `*.hdf5.copied`. -/
def matchesCopied (name : List Char) : Bool := ".hdf5.copied".toList.isSuffixOf name

/-- `list_files` (lines 125-130): concatenate the names matching each of
the two patterns in `match_exprs`, then sort descending by modification
time (`sorted(files, reverse=True, key=...)` is a stable descending sort;
Mathlib's insertion sort with the reflexive descending relation is the same
stable order). -/
def list_files (dirNames : List (List Char)) (mtime : List Char → Nat) :
    List (List Char) :=
  let files := dirNames.filter matchesHdf5 ++ dirNames.filter matchesCopied
  List.insertionSort (fun a b => mtime b ≤ mtime a) files

/-- The two glob patterns are mutually exclusive: no name matches both. -/
theorem matches_disjoint (n : List Char) :
    matchesCopied n = true → matchesHdf5 n = false := by
  intro hc
  by_contra hh
  rw [Bool.not_eq_false] at hh
  rw [matchesCopied, List.isSuffixOf_iff_suffix] at hc
  rw [matchesHdf5, List.isSuffixOf_iff_suffix] at hh
  rcases List.suffix_or_suffix_of_suffix hh hc with h | h
  · have := List.IsSuffix.eq_of_length h
    revert h
    decide
  · have := h.length_le
    simp at this

/-- Contrapositive of pattern disjointness. -/
theorem copied_false_of_hdf5 (n : List Char) (h : matchesHdf5 n = true) :
    matchesCopied n = false := by
  cases hcm : matchesCopied n
  · rfl
  · rw [matches_disjoint n hcm] at h
    cases h

/-- Concatenating the two per-pattern filters is, up to permutation, the
single filter on the disjunction of two mutually exclusive patterns. -/
theorem filter_append_perm_filter_or {α : Type} (p1 p2 : α → Bool) (l : List α)
    (hdisj : ∀ x ∈ l, ¬(p1 x = true ∧ p2 x = true)) :
    (l.filter p1 ++ l.filter p2).Perm (l.filter (fun x => p1 x || p2 x)) := by
  induction l with
  | nil => simp
  | cons x xs ih =>
    have ih' := ih (fun y hy => hdisj y (List.mem_cons_of_mem x hy))
    by_cases h1 : p1 x = true
    · have h2 : p2 x = false := by
        cases hp2 : p2 x
        · rfl
        · exact absurd ⟨h1, hp2⟩ (hdisj x (List.mem_cons_self x xs))
      simp only [List.filter_cons, h1, h2, Bool.false_eq_true, if_false,
        if_true, Bool.true_or, List.cons_append]
      exact ih'.cons x
    · rw [Bool.not_eq_true] at h1
      by_cases h2 : p2 x = true
      · simp only [List.filter_cons, h1, h2, Bool.false_eq_true, if_false,
          if_true, Bool.false_or]
        exact List.perm_middle.trans (ih'.cons x)
      · rw [Bool.not_eq_true] at h2
        simp only [List.filter_cons, h1, h2, Bool.false_eq_true, if_false,
          Bool.false_or]
        exact ih'

/-- Claim C8 (status: confirmed).  `list_files` returns exactly the
directory entries matching one of the two recognized glob patterns, sorted
descending by modification time; in particular three matching files with
modification times `t1 < t2 < t3` come out newest first. -/
theorem c8_list_files (d : List (List Char)) (mtime : List Char → Nat) :
    (list_files d mtime).Perm
      (d.filter (fun n => matchesHdf5 n || matchesCopied n))
    ∧ List.Sorted (fun a b => mtime b ≤ mtime a) (list_files d mtime)
    ∧ ∀ n1 n2 n3 : List Char, matchesHdf5 n1 = true → matchesHdf5 n2 = true →
        matchesHdf5 n3 = true → mtime n1 < mtime n2 → mtime n2 < mtime n3 →
        list_files [n1, n2, n3] mtime = [n3, n2, n1] := by
  refine ⟨?_, ?_, ?_⟩
  · exact (List.perm_insertionSort _ _).trans
      (filter_append_perm_filter_or matchesHdf5 matchesCopied d
        (fun x _ h => by
          have := matches_disjoint x h.2
          rw [this] at h
          exact absurd h.1 (by simp)))
  · haveI : IsTotal (List Char) (fun a b => mtime b ≤ mtime a) :=
      ⟨fun a b => Nat.le_total (mtime b) (mtime a)⟩
    haveI : IsTrans (List Char) (fun a b => mtime b ≤ mtime a) :=
      ⟨fun _ _ _ h1 h2 => le_trans h2 h1⟩
    exact List.sorted_insertionSort (fun a b => mtime b ≤ mtime a) _
  · intro n1 n2 n3 h1 h2 h3 ht12 ht23
    have e1 : [n1, n2, n3].filter matchesHdf5 = [n1, n2, n3] := by
      simp [List.filter_cons, h1, h2, h3]
    have e2 : [n1, n2, n3].filter matchesCopied = [] := by
      simp [List.filter_cons, copied_false_of_hdf5 n1 h1,
        copied_false_of_hdf5 n2 h2, copied_false_of_hdf5 n3 h3]
    have f1 : ¬(mtime n3 ≤ mtime n2) := by omega
    have f2 : ¬(mtime n3 ≤ mtime n1) := by omega
    have f3 : ¬(mtime n2 ≤ mtime n1) := by omega
    simp [list_files, e1, e2, f1, f2, f3]

/-- Modification times for the witness directory. -/
def c8mt : List Char → Nat :=
  fun n => if n = "c.hdf5".toList then 3 else if n = "b.hdf5".toList then 2 else 1

/-- Witness for `c8_list_files`: three matching files with increasing
modification times are listed newest first. -/
theorem c8_witness :
    list_files ["a.hdf5".toList, "b.hdf5".toList, "c.hdf5".toList] c8mt =
      ["c.hdf5".toList, "b.hdf5".toList, "a.hdf5".toList] :=
  (c8_list_files ["a.hdf5".toList, "b.hdf5".toList, "c.hdf5".toList] c8mt).2.2
    "a.hdf5".toList "b.hdf5".toList "c.hdf5".toList
    (by decide) (by decide) (by decide) (by decide) (by decide)

/-! ## Claim C9: the inverse hardware-address index (lines 99-117) -/

/-- Hardware address `(crate_no, slot_no, fiber_no, ch_no)`. -/
abbrev HwAddress := Nat × Nat × Nat × Nat

/-- Apply a channel map to a hardware address. -/
def applyChMap (chMap : Nat → Nat → Nat → Nat → Nat) (a : HwAddress) : Nat :=
  chMap a.1 a.2.1 a.2.2.1 a.2.2.2

/-- The enumeration of `_init_o2h_map` for the VDColdbox configuration
(lines 100-111): `crate_no = 4`, slots `range(4)` (outer loop), fibres
`range(1, 3)`, channels `range(256)` (inner loop). -/
def vdColdboxDomain : List HwAddress :=
  (List.range 4).flatMap (fun slot_no =>
    ((List.range 2).map (fun i => i + 1)).flatMap (fun fiber_no =>
      (List.range 256).map (fun ch_no => (4, slot_no, fiber_no, ch_no))))

/-- One iteration of the `_init_o2h_map` loop body (lines 112-115): skip
sentinel results, otherwise `o2h_map[off_ch] = (crate, slot, fiber, ch)`. -/
def o2hStep (chMap : Nat → Nat → Nat → Nat → Nat)
    (m : List (Nat × HwAddress)) (a : HwAddress) : List (Nat × HwAddress) :=
  if applyChMap chMap a = channelSentinel then m
  else pyDictSet (applyChMap chMap a) a m

/-- `_init_o2h_map` (lines 99-117): the eagerly built inverse index for the
VDColdbox configuration, empty for every other configuration name. -/
def _init_o2h_map (ch_map_name : String)
    (chMap : Nat → Nat → Nat → Nat → Nat) : List (Nat × HwAddress) :=
  if ch_map_name = "VDColdbox" then vdColdboxDomain.foldl (o2hStep chMap) []
  else []

/-- Looking up the key just set finds the new value. -/
theorem pyDictFind?_set_self {κ V : Type} [DecidableEq κ] (k : κ) (v : V)
    (d : List (κ × V)) : pyDictFind? k (pyDictSet k v d) = some v := by
  induction d with
  | nil => simp [pyDictSet, pyDictFind?]
  | cons p ps ih =>
    by_cases hp : p.1 = k
    · simp [pyDictSet, pyDictFind?, hp]
    · cases hs : (ps.find? (fun q => decide (q.1 = k))).isSome
      · simp only [pyDictSet, pyDictFind?, List.find?_cons, hp,
          decide_eq_true_eq, if_neg hp, decide_False] at ih ⊢
        simp only [hs, Bool.false_eq_true, if_false] at ih ⊢
        simpa [List.find?_cons, hp] using ih
      · simp only [pyDictSet, pyDictFind?, List.find?_cons, hp,
          decide_eq_true_eq, decide_False] at ih ⊢
        simp only [hs, if_true] at ih ⊢
        simpa [List.find?_cons, hp] using ih

/-- Updating the entries keyed `k` does not affect a search for a
different key. -/
theorem find?_update_other {κ V : Type} [DecidableEq κ] (k k' : κ) (v : V)
    (d : List (κ × V)) (hkk : k' ≠ k) :
    (d.map (fun p => if p.1 = k then (k, v) else p)).find?
        (fun p => decide (p.1 = k')) =
      d.find? (fun p => decide (p.1 = k')) := by
  induction d with
  | nil => rfl
  | cons p ps ih =>
    by_cases hpk : p.1 = k
    · have h1 : ¬(k = k') := fun h => hkk h.symm
      have h2 : ¬(p.1 = k') := by rw [hpk]; exact h1
      simp only [List.map_cons, if_pos hpk, List.find?_cons, decide_eq_true_eq]
      simp only [h1, h2, decide_False, Bool.false_eq_true, if_false]
      exact ih
    · simp only [List.map_cons, if_neg hpk, List.find?_cons]
      by_cases hp : p.1 = k'
      · simp [hp]
      · simp only [hp, decide_False, Bool.false_eq_true, if_false]
        exact ih

/-- Setting one key leaves lookups of any other key unchanged. -/
theorem pyDictFind?_set_other {κ V : Type} [DecidableEq κ] (k k' : κ) (v : V)
    (d : List (κ × V)) (hkk : k' ≠ k) :
    pyDictFind? k' (pyDictSet k v d) = pyDictFind? k' d := by
  unfold pyDictSet pyDictFind?
  split
  · rw [find?_update_other k k' v d hkk]
  · rw [List.find?_append]
    have hne : ¬(k = k') := fun h => hkk h.symm
    have : ([(k, v)].find? (fun p => decide (p.1 = k'))) = none := by
      simp [List.find?_cons, hne]
    simp [this]

/-- Invariant of the `_init_o2h_map` loop: once an address `a` whose
offline channel is neither the sentinel nor reassigned by any remaining
iteration has been processed (or is pending in the remaining iterations),
the final index maps its offline channel back to `a`. -/
theorem o2h_fold_lookup (chMap : Nat → Nat → Nat → Nat → Nat) (a : HwAddress)
    (hsent : applyChMap chMap a ≠ channelSentinel) :
    ∀ (l : List HwAddress) (m : List (Nat × HwAddress)),
    (∀ b ∈ l, applyChMap chMap b ≠ channelSentinel →
      applyChMap chMap b = applyChMap chMap a → b = a) →
    (a ∈ l ∨ pyDictFind? (applyChMap chMap a) m = some a) →
    pyDictFind? (applyChMap chMap a) (l.foldl (o2hStep chMap) m) = some a := by
  intro l
  induction l with
  | nil =>
    intro m _ hmem
    rcases hmem with hmem | hm
    · cases hmem
    · simpa using hm
  | cons b l ih =>
    intro m hinj hmem
    rw [List.foldl_cons]
    apply ih _ (fun b' hb' => hinj b' (List.mem_cons_of_mem b hb'))
    rcases hmem with hmem | hm
    · rcases List.mem_cons.mp hmem with rfl | hal
      · right
        unfold o2hStep
        rw [if_neg hsent]
        exact pyDictFind?_set_self _ _ _
      · left
        exact hal
    · right
      unfold o2hStep
      by_cases hbs : applyChMap chMap b = channelSentinel
      · rw [if_pos hbs]
        exact hm
      · rw [if_neg hbs]
        by_cases hkey : applyChMap chMap b = applyChMap chMap a
        · have hba : b = a := hinj b (List.mem_cons_self b l) hbs hkey
          subst hba
          exact pyDictFind?_set_self _ _ _
        · rw [pyDictFind?_set_other _ _ _ _ (fun h => hkey h.symm)]
          exact hm

/-- The sentinel key is never inserted by the `_init_o2h_map` loop. -/
theorem o2h_fold_sentinel (chMap : Nat → Nat → Nat → Nat → Nat) :
    ∀ (l : List HwAddress) (m : List (Nat × HwAddress)),
    pyDictFind? channelSentinel m = none →
    pyDictFind? channelSentinel (l.foldl (o2hStep chMap) m) = none := by
  intro l
  induction l with
  | nil => intro m hm; simpa using hm
  | cons b l ih =>
    intro m hm
    rw [List.foldl_cons]
    apply ih
    unfold o2hStep
    by_cases hbs : applyChMap chMap b = channelSentinel
    · rw [if_pos hbs]
      exact hm
    · rw [if_neg hbs]
      rw [pyDictFind?_set_other _ _ _ _ (fun h => hbs h.symm)]
      exact hm

/-- Claim C9 (status: confirmed).  If the channel map is injective on the
VDColdbox enumeration domain away from the sentinel (the documented
behaviour of the external geometry library: distinct mapped addresses get
distinct offline channels), then for every enumerated hardware address
whose offline channel is not the sentinel, the precomputed inverse index
recovers exactly that address, and the sentinel never appears as a key of
the inverse index. -/
theorem c9_o2h_inverse (chMap : Nat → Nat → Nat → Nat → Nat)
    (hinj : ∀ a ∈ vdColdboxDomain, ∀ b ∈ vdColdboxDomain,
      applyChMap chMap a ≠ channelSentinel →
      applyChMap chMap b = applyChMap chMap a → b = a) :
    (∀ a ∈ vdColdboxDomain, applyChMap chMap a ≠ channelSentinel →
      pyDictFind? (applyChMap chMap a) (_init_o2h_map "VDColdbox" chMap) =
        some a)
    ∧ pyDictFind? channelSentinel (_init_o2h_map "VDColdbox" chMap) = none := by
  constructor
  · intro a ha hsent
    unfold _init_o2h_map
    rw [if_pos rfl]
    exact o2h_fold_lookup chMap a hsent vdColdboxDomain []
      (fun b hb hbs hkey => hinj a ha b hb hsent hkey) (Or.inl ha)
  · unfold _init_o2h_map
    rw [if_pos rfl]
    exact o2h_fold_sentinel chMap vdColdboxDomain [] (by rfl)

/-- Membership in the VDColdbox enumeration, characterised by bounds. -/
theorem mem_vdColdboxDomain_iff (a : HwAddress) :
    a ∈ vdColdboxDomain ↔
      a.1 = 4 ∧ a.2.1 < 4 ∧ (a.2.2.1 = 1 ∨ a.2.2.1 = 2) ∧ a.2.2.2 < 256 := by
  obtain ⟨c, s, f, ch⟩ := a
  simp only [vdColdboxDomain, List.mem_flatMap, List.mem_map, List.mem_range]
  constructor
  · rintro ⟨s', hs', _, ⟨i, hi, rfl⟩, ch', hch', heq⟩
    obtain ⟨rfl, rfl, rfl, rfl⟩ :
        (4 : Nat) = c ∧ s' = s ∧ i + 1 = f ∧ ch' = ch := by
      simpa [Prod.ext_iff] using heq
    refine ⟨rfl, hs', ?_, hch'⟩
    omega
  · rintro ⟨rfl, hs, hf, hch⟩
    refine ⟨s, hs, f, ⟨f - 1, by omega, by omega⟩, ch, hch, rfl⟩

/-- An injective channel map for the witness: a mixed-radix encoding of the
hardware address, never equal to the sentinel on the enumerated domain. -/
def wmapC9 : Nat → Nat → Nat → Nat → Nat :=
  fun crate_no slot_no fiber_no ch_no =>
    ((crate_no * 4 + slot_no) * 4 + fiber_no) * 256 + ch_no

/-- Witness for `c9_o2h_inverse`: the inverse index built with the
mixed-radix map recovers a concrete address, and holds no sentinel key. -/
theorem c9_witness :
    pyDictFind? (applyChMap wmapC9 (4, 2, 1, 7)) (_init_o2h_map "VDColdbox" wmapC9)
        = some (4, 2, 1, 7)
    ∧ pyDictFind? channelSentinel (_init_o2h_map "VDColdbox" wmapC9) = none := by
  have hinj : ∀ a ∈ vdColdboxDomain, ∀ b ∈ vdColdboxDomain,
      applyChMap wmapC9 a ≠ channelSentinel →
      applyChMap wmapC9 b = applyChMap wmapC9 a → b = a := by
    intro a ha b hb _ heq
    rw [mem_vdColdboxDomain_iff] at ha hb
    obtain ⟨a1, a2, a3, a4⟩ := a
    obtain ⟨b1, b2, b3, b4⟩ := b
    simp only [applyChMap, wmapC9] at heq
    simp only at ha hb
    simp only [Prod.mk.injEq]
    omega
  have h := c9_o2h_inverse wmapC9 hinj
  exact ⟨h.1 (4, 2, 1, 7) (by decide) (by decide), h.2⟩

/-! ## Claim C10: failed loads leave the cache untouched -/

/-- Claim C10 (status: confirmed).  Whenever `load_trigger_record` raises,
the cache after the call is exactly the cache before it: the only cache
writes are the hit-promotion (a non-raising path) and the insertion at
line 218, which runs only after the whole table has been assembled and
reindexed. -/
theorem c10_cache_unchanged_on_error (chMap : Nat → Nat → Nat → Nat → Nat)
    (file_name : String) (file : HDF5File) (tr_num : Nat)
    (cache : Cache (TrInfo × DataFrame)) (e : PyError)
    (h : (loadTriggerRecord chMap file_name file tr_num cache).1 =
      Except.error e) :
    (loadTriggerRecord chMap file_name file tr_num cache).2 = cache := by
  rcases hc : pyDictFind? (file_name, tr_num) cache with _ | entry
  · rcases hr : pyDictFind? tr_num file.records with _ | rec
    · simp [loadTriggerRecord, hc, hr]
    · simp only [loadTriggerRecord, hc, hr] at h ⊢
      split at h
      · rfl
      · split at h
        · rfl
        · simp at h
  · simp only [loadTriggerRecord, hc] at h
    simp at h

/-- A pre-populated cache for the C10 witness. -/
def cacheC10 : Cache (TrInfo × DataFrame) :=
  [(("g.hdf5", 2),
    ({ run_number := 0, trigger_number := 0, trigger_timestamp := 0 },
     { index := [], cols := [] }))]

/-- An empty container: every record lookup raises. -/
def fileC10 : HDF5File := { records := [], allTriggerRecordIds := [] }

/-- Witness for `c10_cache_unchanged_on_error`: a load that raises because
the record is absent leaves the pre-populated cache untouched. -/
theorem c10_witness :
    (loadTriggerRecord cmapZero "run.hdf5" fileC10 1 cacheC10).2 = cacheC10 :=
  c10_cache_unchanged_on_error cmapZero "run.hdf5" fileC10 1 cacheC10
    PyError.keyError (by rfl)
